import Mathlib

/-!
# Unlink probes of the runtime security eBPF program

A shallow embedding of `pkg/security/ebpf/c/unlink.h` (with `filters.h`): the entry probe
`trace__sys_unlink`, the mid-flight probe `kprobe__vfs_unlink` and the return probe
`trace__sys_unlink_ret`, as functions on an explicit machine state.

The state holds the two BPF maps the probes touch (the prefix discarders and the per-thread
syscall cache) and the sequence of effectful helper calls performed so far, so that
"a helper is not called" and "exactly one event is sent" are statements about the state.

Everything `unlink.h` uses from headers that are not part of the two source files is either a
field of `Env` (constants, macros and pure readers of kernel memory) or a definition whose doc
comment says that it is modelled from the specification.
-/

namespace Unlink

/-! ## filters.h -/

/-- The `struct filter_t` of filters.h: a single `char`. -/
structure filter_t where
  value : Int
deriving DecidableEq, Repr

/-! ## unlink.h: constants and records -/

/-- The `#define UNLINK_PREFIX_SIZE 32` of unlink.h. -/
def UNLINK_PREFIX_SIZE : Nat := 32

/-- Modelled from the spec: the `path_key` member of the unlink payload (its declaration lives in
a header outside the source files); the spec gives `inode: u64` and `mountId: u32`. -/
structure path_key_t where
  ino : Nat
  mount_id : Nat
deriving DecidableEq, Repr

/-- Modelled from the spec: the `unlink` member of `struct syscall_cache_t` (declared in the
absent syscalls.h), with the three fields unlink.h reads and writes: `flags`, `path_key` and
`overlay_numlower`. -/
structure unlink_cache_t where
  flags : Int
  path_key : path_key_t
  overlay_numlower : Int
deriving DecidableEq, Repr

/-- Modelled from the spec: `struct syscall_cache_t` (declared in the absent syscalls.h): the
call kind tag `type` and the unlink payload. -/
structure syscall_cache_t where
  type : Nat
  unlink : unlink_cache_t
deriving DecidableEq, Repr

/-- Modelled from the spec: `struct event_t` (declared in an absent header): the three fields
unlink.h initialises, in the order the spec lists them: tag, timestamp, return value. -/
structure event_t where
  type : Nat
  timestamp : Nat
  retval : Int
deriving DecidableEq, Repr

/-- The `struct unlink_event_t` of unlink.h, fields in declaration order. The process record
(`struct process_data_t`, declared elsewhere) is an opaque number. -/
structure unlink_event_t where
  event : event_t
  process : Nat
  inode : Nat
  mount_id : Int
  overlay_numlower : Int
  flags : Int
  padding : Int
deriving DecidableEq, Repr

/-- What unlink.h takes from headers outside the source files: the `EVENT_UNLINK` tag, the size
of `struct unlink_prefix_t`, the `IS_UNHANDLED_ERROR` macro, the two pure readers of a dentry
(addressed by its pointer) and the process record `fill_process_data` writes for a thread. -/
structure Env where
  EVENT_UNLINK : Nat
  sizeof_unlink_prefix_t : Nat
  IS_UNHANDLED_ERROR : Int → Bool
  get_dentry_ino : Nat → Nat
  get_overlay_numlower : Nat → Int
  process_data : Nat → Nat

/-- The registers a probe reads from `struct pt_regs`: the second parameter (the dentry pointer
at `vfs_unlink`) and the return code (a signed long at the return probe). -/
structure pt_regs where
  parm2 : Nat
  rc : Int
deriving DecidableEq, Repr

/-- The `PT_REGS_PARM2(ctx)` register read. -/
def PT_REGS_PARM2 (ctx : pt_regs) : Nat := ctx.parm2

/-- The `PT_REGS_RC(ctx)` register read. -/
def PT_REGS_RC (ctx : pt_regs) : Int := ctx.rc

/-- Conversion of an integer to a C `int` (32-bit two's complement), as in
`int retval = PT_REGS_RC(ctx)` and `.mount_id = syscall->unlink.path_key.mount_id`. -/
def int32 (x : Int) : Int := (x + 2147483648) % 4294967296 - 2147483648

/-! ## Machine state -/

/-- The effectful helper calls of unlink.h, with their arguments. -/
inductive Call where
  | cache_syscall (tid : Nat) (syscall : syscall_cache_t)
  | resolve_dentry (dentry : Nat) (key : path_key_t)
  | fill_process_data (tid : Nat)
  | send_event (event : unlink_event_t)
deriving DecidableEq, Repr

/-- The state the probes run on: the `unlink_prefix_discarders` map (prefix bytes to
`filter_t`), the per-thread syscall cache (thread id to context) and the helper calls made so
far, oldest first. -/
structure State where
  unlink_prefix_discarders : List (List Nat × filter_t)
  syscalls : List (Nat × syscall_cache_t)
  calls : List Call
deriving DecidableEq, Repr

/-- The `bpf_map_lookup_elem` helper on a map kept as an association list: the value of the
first entry with the key. -/
def bpf_map_lookup_elem {κ ν : Type} [DecidableEq κ] (m : List (κ × ν)) (key : κ) : Option ν :=
  match m with
  | [] => none
  | (k, v) :: rest => if k = key then some v else bpf_map_lookup_elem rest key

/-- The `bpf_map_delete_elem` helper: every entry with the key is removed. -/
def bpf_map_delete_elem {κ ν : Type} [DecidableEq κ] (m : List (κ × ν)) (key : κ) : List (κ × ν) :=
  m.filter (fun p => decide (p.1 ≠ key))

/-- The `bpf_map_update_elem` helper with `BPF_ANY`: the key is bound to the value, replacing
a previous binding. (Capacity eviction of the LRU map is not modelled.) -/
def bpf_map_update_elem {κ ν : Type} [DecidableEq κ] (m : List (κ × ν)) (key : κ) (value : ν) :
    List (κ × ν) :=
  (key, value) :: bpf_map_delete_elem m key

/-- A store through the pointer `bpf_map_lookup_elem` returned: the value of each entry with
the key is replaced in place. -/
def store_elem {κ ν : Type} [DecidableEq κ] (m : List (κ × ν)) (key : κ) (value : ν) :
    List (κ × ν) :=
  m.map (fun p => if p.1 = key then (p.1, value) else p)

/-- Modelled from the spec: `cache_syscall` of the absent syscalls.h, the spec's `begin`:
inserts or overwrites the in-flight context of the executing thread. -/
def cache_syscall (tid : Nat) (syscall : syscall_cache_t) (st : State) : State :=
  { st with
    syscalls := bpf_map_update_elem st.syscalls tid syscall
    calls := st.calls ++ [Call.cache_syscall tid syscall] }

/-- Modelled from the spec: `peek_syscall` of the absent syscalls.h, the spec's `peek`: the
context of the executing thread, if any, without removing it. -/
def peek_syscall (tid : Nat) (st : State) : Option syscall_cache_t :=
  bpf_map_lookup_elem st.syscalls tid

/-- Modelled from the spec: `pop_syscall` of the absent syscalls.h, the spec's `end`: removes
and returns the context of the executing thread, if any. -/
def pop_syscall (tid : Nat) (st : State) : Option syscall_cache_t × State :=
  match bpf_map_lookup_elem st.syscalls tid with
  | none => (none, st)
  | some syscall => (some syscall, { st with syscalls := bpf_map_delete_elem st.syscalls tid })

/-- Writes through the pointer `peek_syscall` returned land in the cached context of the
thread. -/
def poke_syscall (tid : Nat) (syscall : syscall_cache_t) (st : State) : State :=
  { st with syscalls := store_elem st.syscalls tid syscall }

/-- Modelled from the spec: `resolve_dentry` of the absent dentry.h. It receives the path key
by value, so it cannot change the cached context; the call is recorded. -/
def resolve_dentry (dentry : Nat) (key : path_key_t) (st : State) : State :=
  { st with calls := st.calls ++ [Call.resolve_dentry dentry key] }

/-- Modelled from the spec: `fill_process_data` of the absent process.h, the spec's
`currentProcessMetadata`: an infallible read that fills the process record of the event. -/
def fill_process_data (E : Env) (tid : Nat) (event : unlink_event_t) (st : State) :
    unlink_event_t × State :=
  ({ event with process := E.process_data tid },
   { st with calls := st.calls ++ [Call.fill_process_data tid] })

/-- Modelled from the spec: `send_event` of an absent header, the spec's `emit`: hands the
record to the output channel. -/
def send_event (event : unlink_event_t) (st : State) : State :=
  { st with calls := st.calls ++ [Call.send_event event] }

/-- The events sent so far, oldest first. -/
def sent (st : State) : List unlink_event_t :=
  st.calls.filterMap (fun c => match c with
    | Call.send_event e => some e
    | _ => none)

/-- The `cache_syscall` calls made so far, oldest first. -/
def cached (st : State) : List (Nat × syscall_cache_t) :=
  st.calls.filterMap (fun c => match c with
    | Call.cache_syscall t s => some (t, s)
    | _ => none)

/-! ## Reading the path from user memory -/

/-- What a read at the `pathname` pointer finds: an unreadable address, or the bytes of a
string (read up to its first NUL byte). -/
inductive UserMem where
  | fault
  | cstr (bytes : List Nat)
deriving DecidableEq, Repr

/-- The bytes of a path given as text. -/
def UserMem.ofString (s : String) : UserMem :=
  UserMem.cstr (s.toList.map Char.toNat)

/-- The kernel helper `bpf_probe_read_str(dst, size, src)`: copies the string at `src`, at most
`size - 1` bytes and a terminating NUL, into `dst` and returns the number of bytes written; on a
fault it returns `-EFAULT` and zeroes the `size` bytes of `dst`. -/
def bpf_probe_read_str (dst : List Nat) (size : Nat) (src : UserMem) : List Nat × Int :=
  match src with
  | UserMem.fault => (List.replicate size 0 ++ dst.drop size, -14)
  | UserMem.cstr bytes =>
    if size = 0 then (dst, 0)
    else
      let s := (bytes.takeWhile (fun b => decide (b ≠ 0))).take (size - 1)
      (s ++ 0 :: dst.drop (s.length + 1), (s.length : Int) + 1)

/-- The prefix buffer of the entry probe after
`struct unlink_prefix_t prefix = {}; bpf_probe_read_str(&prefix, sizeof(prefix), pathname)`. -/
def prefix_buffer (E : Env) (pathname : UserMem) : List Nat :=
  (bpf_probe_read_str (List.replicate E.sizeof_unlink_prefix_t 0) E.sizeof_unlink_prefix_t
    pathname).1

/-! ## The probes -/

/-- The entry probe `trace__sys_unlink(pathname, flags)`, run by thread `tid`. -/
def trace__sys_unlink (E : Env) (tid : Nat) (pathname : UserMem) (flags : Int) (st : State) :
    Int × State :=
  let pfx := prefix_buffer E pathname
  match bpf_map_lookup_elem st.unlink_prefix_discarders pfx with
  | some _ => (0, st)
  | none =>
    let syscall : syscall_cache_t :=
      { type := E.EVENT_UNLINK
        unlink := { flags := flags, path_key := { ino := 0, mount_id := 0 },
                    overlay_numlower := 0 } }
    (0, cache_syscall tid syscall st)

/-- The mid-flight probe `kprobe__vfs_unlink(ctx)`, run by thread `tid`. -/
def kprobe__vfs_unlink (E : Env) (tid : Nat) (ctx : pt_regs) (st : State) : Int × State :=
  match peek_syscall tid st with
  | none => (0, st)
  | some syscall =>
    if syscall.unlink.path_key.ino ≠ 0 then (0, st)
    else
      let dentry := PT_REGS_PARM2 ctx
      let s1 : syscall_cache_t :=
        { syscall with unlink :=
            { syscall.unlink with overlay_numlower := E.get_overlay_numlower dentry } }
      let s2 : syscall_cache_t :=
        { s1 with unlink :=
            { s1.unlink with path_key :=
                { s1.unlink.path_key with ino := E.get_dentry_ino dentry } } }
      (0, resolve_dentry dentry s2.unlink.path_key (poke_syscall tid s2 st))

/-- The return probe `trace__sys_unlink_ret(ctx)`, run by thread `tid` when the clock
(`bpf_ktime_get_ns`) reads `now`. -/
def trace__sys_unlink_ret (E : Env) (tid : Nat) (now : Nat) (ctx : pt_regs) (st : State) :
    Int × State :=
  match pop_syscall tid st with
  | (none, st1) => (0, st1)
  | (some syscall, st1) =>
    let retval := int32 (PT_REGS_RC ctx)
    if E.IS_UNHANDLED_ERROR retval then (0, st1)
    else
      let event : unlink_event_t :=
        { event := { retval := PT_REGS_RC ctx, type := E.EVENT_UNLINK, timestamp := now }
          mount_id := int32 syscall.unlink.path_key.mount_id
          inode := syscall.unlink.path_key.ino
          overlay_numlower := syscall.unlink.overlay_numlower
          flags := syscall.unlink.flags
          process := 0
          padding := 0 }
      let filled := fill_process_data E tid event st1
      (0, send_event filled.1 filled.2)

/-- The mid-flight probe fired once per dentry of the list, in order, by thread `tid`. -/
def vfs_unlink_calls (E : Env) (tid : Nat) (dentries : List Nat) (st : State) : State :=
  dentries.foldl (fun s d => (kprobe__vfs_unlink E tid { parm2 := d, rc := 0 } s).2) st

/-- The record `send_event` hands to the output channel, as the sequence of the fields of
`struct unlink_event_t` in declaration order (the header `event` expanded in the order of
`event_t`), each with its value. -/
def unlink_event_t.wire (e : unlink_event_t) : List (String × Int) :=
  [("type", e.event.type), ("timestamp", e.event.timestamp), ("retval", e.event.retval),
   ("process", e.process), ("inode", e.inode), ("mount_id", e.mount_id),
   ("overlay_numlower", e.overlay_numlower), ("flags", e.flags), ("padding", e.padding)]

/-- The context the mid-flight probe writes when it resolves `dentry` on context `c`. -/
def resolved (E : Env) (dentry : Nat) (c : syscall_cache_t) : syscall_cache_t :=
  { c with unlink :=
      { c.unlink with
        overlay_numlower := E.get_overlay_numlower dentry
        path_key := { c.unlink.path_key with ino := E.get_dentry_ino dentry } } }

/-- The record the return probe builds from context `c`. -/
def built (E : Env) (tid now : Nat) (ctx : pt_regs) (c : syscall_cache_t) : unlink_event_t :=
  { event := { type := E.EVENT_UNLINK, timestamp := now, retval := PT_REGS_RC ctx }
    process := E.process_data tid
    inode := c.unlink.path_key.ino
    mount_id := int32 c.unlink.path_key.mount_id
    overlay_numlower := c.unlink.overlay_numlower
    flags := c.unlink.flags
    padding := 0 }

/-! ## A concrete environment for evaluation -/

/-- A concrete environment: tag 4, a 32-byte prefix, negative return values unhandled, and a
dentry at address `d` holding inode `d % 1000` and overlay count `d / 1000`. -/
def env0 : Env where
  EVENT_UNLINK := 4
  sizeof_unlink_prefix_t := UNLINK_PREFIX_SIZE
  IS_UNHANDLED_ERROR := fun r => decide (r < 0)
  get_dentry_ino := fun d => d % 1000
  get_overlay_numlower := fun d => (d / 1000 : Nat)
  process_data := fun tid => tid + 100

/-- The empty machine state. -/
def State.empty : State :=
  { unlink_prefix_discarders := [], syscalls := [], calls := [] }

/-- A state with a discarder for the prefix of "/var/lib/blocked" and a context left in the
syscall cache for thread 7 by an earlier call whose return probe never ran. -/
def staleState : State :=
  { unlink_prefix_discarders := [(prefix_buffer env0 (UserMem.ofString "/var/lib/blocked"), ⟨1⟩)]
    syscalls :=
      [(7, { type := 4
             unlink := { flags := 512, path_key := { ino := 42, mount_id := 3 },
                         overlay_numlower := 1 } })]
    calls := [] }

/-- A state with a discarder for the short path "/tmp" and one for the all-zero prefix. -/
def shortKeyState : State :=
  { unlink_prefix_discarders :=
      [(prefix_buffer env0 (UserMem.ofString "/tmp"), ⟨1⟩), (List.replicate 32 0, ⟨1⟩)]
    syscalls := []
    calls := [] }

/-- The state after thread 7 entered `unlink("/tmp/foo")` with an empty discarder store. -/
def enteredState : State :=
  (trace__sys_unlink env0 7 (UserMem.ofString "/tmp/foo") 0 State.empty).2

/-- The context `staleState` holds for thread 7. -/
def staleContext : syscall_cache_t :=
  { type := 4
    unlink := { flags := 512, path_key := { ino := 42, mount_id := 3 }, overlay_numlower := 1 } }

/-- The state `staleState` without the context of thread 7. -/
def blockedState : State :=
  { staleState with syscalls := [] }

/-- The context the entry probe creates for flags 0 in `env0`. -/
def freshContext : syscall_cache_t :=
  { type := 4
    unlink := { flags := 0, path_key := { ino := 0, mount_id := 0 }, overlay_numlower := 0 } }

/-- An event record with distinct field values. -/
def sampleEvent : unlink_event_t :=
  { event := { type := 4, timestamp := 55, retval := 0 }
    process := 107, inode := 7, mount_id := 3, overlay_numlower := 2, flags := 512, padding := 0 }

/-! ## Lemmas on the maps -/

theorem lookup_update {κ ν : Type} [DecidableEq κ] (m : List (κ × ν)) (k : κ) (v : ν) :
    bpf_map_lookup_elem (bpf_map_update_elem m k v) k = some v := by
  simp [bpf_map_update_elem, bpf_map_lookup_elem]

theorem lookup_delete {κ ν : Type} [DecidableEq κ] (m : List (κ × ν)) (k : κ) :
    bpf_map_lookup_elem (bpf_map_delete_elem m k) k = none := by
  induction m with
  | nil => simp [bpf_map_delete_elem, bpf_map_lookup_elem]
  | cons p rest ih =>
    obtain ⟨a, b⟩ := p
    by_cases hk : a = k
    · simpa [bpf_map_delete_elem, List.filter, hk] using ih
    · simpa [bpf_map_delete_elem, List.filter, hk, bpf_map_lookup_elem] using ih

theorem lookup_cons {κ ν : Type} [DecidableEq κ] (p : κ × ν) (rest : List (κ × ν)) (key : κ) :
    bpf_map_lookup_elem (p :: rest) key =
      if p.1 = key then some p.2 else bpf_map_lookup_elem rest key := by
  cases p
  rfl

theorem lookup_store {κ ν : Type} [DecidableEq κ] (m : List (κ × ν)) (k : κ) (v w : ν)
    (h : bpf_map_lookup_elem m k = some w) :
    bpf_map_lookup_elem (store_elem m k v) k = some v := by
  induction m with
  | nil => simp [bpf_map_lookup_elem] at h
  | cons p rest ih =>
    obtain ⟨a, b⟩ := p
    by_cases hk : a = k
    · simp only [store_elem, List.map_cons, if_pos hk, lookup_cons]
    · simp only [lookup_cons, if_neg hk] at h
      have hrest := ih h
      simp only [store_elem, List.map_cons, if_neg hk, lookup_cons] at hrest ⊢
      exact hrest

/-! ## Lemmas on the prefix buffer -/

theorem prefix_buffer_fault (E : Env) :
    prefix_buffer E UserMem.fault = List.replicate E.sizeof_unlink_prefix_t 0 := by
  simp [prefix_buffer, bpf_probe_read_str]

/-- After a read that succeeds the buffer holds the bytes of the string up to its first NUL,
cut to one less than the buffer size, and zero bytes up to the buffer size. -/
theorem prefix_buffer_cstr (E : Env) (bytes : List Nat) :
    prefix_buffer E (UserMem.cstr bytes) =
      (bytes.takeWhile (fun b => decide (b ≠ 0))).take (E.sizeof_unlink_prefix_t - 1) ++
        List.replicate
          (E.sizeof_unlink_prefix_t -
            ((bytes.takeWhile (fun b => decide (b ≠ 0))).take
              (E.sizeof_unlink_prefix_t - 1)).length) 0 := by
  by_cases hz : E.sizeof_unlink_prefix_t = 0
  · simp [prefix_buffer, bpf_probe_read_str, hz]
  · have hlen : ((bytes.takeWhile (fun b => decide (b ≠ 0))).take
        (E.sizeof_unlink_prefix_t - 1)).length ≤ E.sizeof_unlink_prefix_t - 1 :=
      List.length_take_le _ _
    have hsplit : E.sizeof_unlink_prefix_t -
        ((bytes.takeWhile (fun b => decide (b ≠ 0))).take
          (E.sizeof_unlink_prefix_t - 1)).length =
        (E.sizeof_unlink_prefix_t -
          (((bytes.takeWhile (fun b => decide (b ≠ 0))).take
            (E.sizeof_unlink_prefix_t - 1)).length + 1)) + 1 := by omega
    simp only [prefix_buffer, bpf_probe_read_str, if_neg hz, List.drop_replicate]
    rw [hsplit, List.replicate_succ]

/-- A string without a NUL byte that is shorter than the buffer is copied whole and padded with
zero bytes. -/
theorem prefix_buffer_short (E : Env) (bytes : List Nat) (hnul : ∀ b ∈ bytes, b ≠ 0)
    (hlen : bytes.length < E.sizeof_unlink_prefix_t) :
    prefix_buffer E (UserMem.cstr bytes) =
      bytes ++ List.replicate (E.sizeof_unlink_prefix_t - bytes.length) 0 := by
  have htw : bytes.takeWhile (fun b => decide (b ≠ 0)) = bytes := by
    rw [List.takeWhile_eq_self_iff]
    intro b hb
    simpa using hnul b hb
  have htake : bytes.take (E.sizeof_unlink_prefix_t - 1) = bytes :=
    List.take_of_length_le (by omega)
  rw [prefix_buffer_cstr, htw, htake]

/-! ## Lemmas on the probes -/

theorem entry_discarded (E : Env) (tid : Nat) (pathname : UserMem) (flags : Int) (st : State)
    (f : filter_t)
    (h : bpf_map_lookup_elem st.unlink_prefix_discarders (prefix_buffer E pathname) = some f) :
    trace__sys_unlink E tid pathname flags st = (0, st) := by
  simp [trace__sys_unlink, h]

theorem entry_missed (E : Env) (tid : Nat) (pathname : UserMem) (flags : Int) (st : State)
    (h : bpf_map_lookup_elem st.unlink_prefix_discarders (prefix_buffer E pathname) = none) :
    trace__sys_unlink E tid pathname flags st =
      (0, cache_syscall tid
            { type := E.EVENT_UNLINK
              unlink := { flags := flags, path_key := { ino := 0, mount_id := 0 },
                          overlay_numlower := 0 } } st) := by
  simp [trace__sys_unlink, h]

theorem peek_cache_syscall (tid : Nat) (c : syscall_cache_t) (st : State) :
    peek_syscall tid (cache_syscall tid c st) = some c := by
  simp [peek_syscall, cache_syscall, lookup_update]

theorem kprobe_absent (E : Env) (tid : Nat) (ctx : pt_regs) (st : State)
    (h : peek_syscall tid st = none) : kprobe__vfs_unlink E tid ctx st = (0, st) := by
  simp [kprobe__vfs_unlink, h]

theorem kprobe_resolved (E : Env) (tid : Nat) (ctx : pt_regs) (st : State) (c : syscall_cache_t)
    (hc : peek_syscall tid st = some c) (h : c.unlink.path_key.ino ≠ 0) :
    kprobe__vfs_unlink E tid ctx st = (0, st) := by
  simp [kprobe__vfs_unlink, hc, h]

theorem kprobe_unresolved (E : Env) (tid : Nat) (ctx : pt_regs) (st : State)
    (c : syscall_cache_t) (hc : peek_syscall tid st = some c) (h : c.unlink.path_key.ino = 0) :
    kprobe__vfs_unlink E tid ctx st =
      (0, resolve_dentry (PT_REGS_PARM2 ctx) (resolved E (PT_REGS_PARM2 ctx) c).unlink.path_key
            (poke_syscall tid (resolved E (PT_REGS_PARM2 ctx) c) st)) := by
  simp [kprobe__vfs_unlink, hc, h, resolved]

theorem peek_after_kprobe_unresolved (E : Env) (tid : Nat) (ctx : pt_regs) (st : State)
    (c : syscall_cache_t) (hc : peek_syscall tid st = some c) (h : c.unlink.path_key.ino = 0) :
    peek_syscall tid (kprobe__vfs_unlink E tid ctx st).2 =
      some (resolved E (PT_REGS_PARM2 ctx) c) := by
  rw [kprobe_unresolved E tid ctx st c hc h]
  simp only [peek_syscall, resolve_dentry, poke_syscall]
  exact lookup_store _ _ _ c hc

theorem calls_resolved (E : Env) (tid : Nat) (ds : List Nat) (st : State) (c : syscall_cache_t)
    (hc : peek_syscall tid st = some c) (h : c.unlink.path_key.ino ≠ 0) :
    vfs_unlink_calls E tid ds st = st := by
  induction ds with
  | nil => rfl
  | cons d rest ih =>
    simp only [vfs_unlink_calls, List.foldl_cons] at ih ⊢
    rw [kprobe_resolved E tid _ st c hc h]
    exact ih

theorem ret_absent (E : Env) (tid now : Nat) (ctx : pt_regs) (st : State)
    (h : peek_syscall tid st = none) : trace__sys_unlink_ret E tid now ctx st = (0, st) := by
  simp only [peek_syscall] at h
  simp [trace__sys_unlink_ret, pop_syscall, h]

theorem ret_unhandled (E : Env) (tid now : Nat) (ctx : pt_regs) (st : State)
    (c : syscall_cache_t) (hc : peek_syscall tid st = some c)
    (h : E.IS_UNHANDLED_ERROR (int32 (PT_REGS_RC ctx)) = true) :
    trace__sys_unlink_ret E tid now ctx st =
      (0, { st with syscalls := bpf_map_delete_elem st.syscalls tid }) := by
  simp only [peek_syscall] at hc
  simp [trace__sys_unlink_ret, pop_syscall, hc, h]

theorem ret_handled (E : Env) (tid now : Nat) (ctx : pt_regs) (st : State)
    (c : syscall_cache_t) (hc : peek_syscall tid st = some c)
    (h : E.IS_UNHANDLED_ERROR (int32 (PT_REGS_RC ctx)) = false) :
    trace__sys_unlink_ret E tid now ctx st =
      (0, { st with
            syscalls := bpf_map_delete_elem st.syscalls tid
            calls := st.calls ++ [Call.fill_process_data tid,
                                  Call.send_event (built E tid now ctx c)] }) := by
  simp only [peek_syscall] at hc
  simp [trace__sys_unlink_ret, pop_syscall, hc, h, fill_process_data, send_event, built]

theorem peek_after_ret (E : Env) (tid now : Nat) (ctx : pt_regs) (st : State) :
    peek_syscall tid (trace__sys_unlink_ret E tid now ctx st).2 = none := by
  cases hc : peek_syscall tid st with
  | none => rw [ret_absent E tid now ctx st hc]; exact hc
  | some c =>
    cases hu : E.IS_UNHANDLED_ERROR (int32 (PT_REGS_RC ctx)) with
    | true =>
      rw [ret_unhandled E tid now ctx st c hc hu]
      exact lookup_delete st.syscalls tid
    | false =>
      rw [ret_handled E tid now ctx st c hc hu]
      exact lookup_delete st.syscalls tid

theorem calls_cons (E : Env) (tid d : Nat) (ds : List Nat) (st : State) :
    vfs_unlink_calls E tid (d :: ds) st =
      vfs_unlink_calls E tid ds (kprobe__vfs_unlink E tid { parm2 := d, rc := 0 } st).2 := rfl

theorem calls_single (E : Env) (tid d : Nat) (st : State) :
    vfs_unlink_calls E tid [d] st = (kprobe__vfs_unlink E tid { parm2 := d, rc := 0 } st).2 := rfl

theorem sent_after_kprobe (E : Env) (tid : Nat) (ctx : pt_regs) (st : State) :
    sent (kprobe__vfs_unlink E tid ctx st).2 = sent st := by
  cases hc : peek_syscall tid st with
  | none => rw [kprobe_absent E tid ctx st hc]
  | some c =>
    by_cases hz : c.unlink.path_key.ino = 0
    · rw [kprobe_unresolved E tid ctx st c hc hz]
      simp [sent, resolve_dentry, poke_syscall, List.filterMap_append]
    · rw [kprobe_resolved E tid ctx st c hc hz]

theorem sent_after_ret_handled (E : Env) (tid now : Nat) (ctx : pt_regs) (st : State)
    (c : syscall_cache_t) (hc : peek_syscall tid st = some c)
    (h : E.IS_UNHANDLED_ERROR (int32 (PT_REGS_RC ctx)) = false) :
    sent (trace__sys_unlink_ret E tid now ctx st).2 = sent st ++ [built E tid now ctx c] := by
  rw [ret_handled E tid now ctx st c hc h]
  simp [sent, List.filterMap_append]

/-- After the first of a run of mid-flight probes the context of the thread has a non-zero
inode, provided it had one before or the first dentry has one. -/
theorem first_call_resolves (E : Env) (tid d : Nat) (st : State) (c : syscall_cache_t)
    (hc : peek_syscall tid st = some c)
    (h1 : c.unlink.path_key.ino ≠ 0 ∨ E.get_dentry_ino d ≠ 0) :
    ∃ c1, peek_syscall tid (vfs_unlink_calls E tid [d] st) = some c1 ∧
      c1.unlink.path_key.ino ≠ 0 ∧
      (c.unlink.path_key.ino = 0 → c1 = resolved E d c) := by
  rw [calls_single]
  by_cases hz : c.unlink.path_key.ino = 0
  · refine ⟨resolved E d c, peek_after_kprobe_unresolved E tid _ st c hc hz, ?_, fun _ => rfl⟩
    rcases h1 with h1 | h1
    · exact absurd hz h1
    · exact h1
  · refine ⟨c, ?_, hz, fun h0 => absurd h0 hz⟩
    rw [kprobe_resolved E tid _ st c hc hz]
    exact hc

theorem calls_after_first (E : Env) (tid d : Nat) (ds : List Nat) (st : State)
    (c : syscall_cache_t) (hc : peek_syscall tid st = some c)
    (h1 : c.unlink.path_key.ino ≠ 0 ∨ E.get_dentry_ino d ≠ 0) :
    vfs_unlink_calls E tid (d :: ds) st = vfs_unlink_calls E tid [d] st := by
  obtain ⟨c1, hp, hne, _⟩ := first_call_resolves E tid d st c hc h1
  rw [calls_cons, ← calls_single]
  exact calls_resolved E tid ds _ c1 hp hne

/-! ## The claims -/

/-- C1 (amended): when the prefix read from the path is a key of `unlink_prefix_discarders`, the
entry probe returns 0 and leaves the whole state as it was, for every flags value and every
prior syscall cache: the cache is unchanged and `cache_syscall` is not called. When moreover the
cache held no context for the thread at entry, the return probe that follows on the same
thread changes nothing and sends no event. -/
theorem discard_precedence (E : Env) (tid now : Nat) (pathname : UserMem) (flags : Int)
    (ctx : pt_regs) (st : State) (f : filter_t)
    (h : bpf_map_lookup_elem st.unlink_prefix_discarders (prefix_buffer E pathname) = some f) :
    trace__sys_unlink E tid pathname flags st = (0, st) ∧
    cached (trace__sys_unlink E tid pathname flags st).2 = cached st ∧
    (peek_syscall tid st = none →
      trace__sys_unlink_ret E tid now ctx (trace__sys_unlink E tid pathname flags st).2
          = (0, st) ∧
      sent (trace__sys_unlink_ret E tid now ctx
              (trace__sys_unlink E tid pathname flags st).2).2 = sent st) := by
  have he := entry_discarded E tid pathname flags st f h
  refine ⟨he, by rw [he], ?_⟩
  intro hnone
  rw [he]
  have hr := ret_absent E tid now ctx st hnone
  exact ⟨hr, by rw [hr]⟩

/-- C3: when the cached context of the thread has a non-zero `path_key.ino`, the mid-flight
probe returns 0 and leaves the whole state unchanged for every dentry argument, so the context
(inode, mount id, overlay count, flags and type) is the same before and after, no
`resolve_dentry` is performed, and this stays so over any number of further invocations. -/
theorem sentinel_guard (E : Env) (tid : Nat) (ctx : pt_regs) (st : State) (c : syscall_cache_t)
    (hc : peek_syscall tid st = some c) (h : c.unlink.path_key.ino ≠ 0) :
    kprobe__vfs_unlink E tid ctx st = (0, st) ∧
    peek_syscall tid (kprobe__vfs_unlink E tid ctx st).2 = some c ∧
    ∀ dentries : List Nat, vfs_unlink_calls E tid dentries st = st := by
  have hk := kprobe_resolved E tid ctx st c hc h
  refine ⟨hk, by rw [hk]; exact hc, ?_⟩
  intro dentries
  exact calls_resolved E tid dentries st c hc h

/-- C5: with a context present for the thread, a return value that `IS_UNHANDLED_ERROR`
classifies as unhandled makes the return probe call neither `fill_process_data` nor
`send_event` (the helper calls and the sent events are as before); a return value not so
classified makes it call `fill_process_data` once and then `send_event` once, with the record
built from the consumed context, so exactly one event is sent. -/
theorem uninteresting_return_suppression (E : Env) (tid now : Nat) (ctx : pt_regs) (st : State)
    (c : syscall_cache_t) (hc : peek_syscall tid st = some c) :
    (E.IS_UNHANDLED_ERROR (int32 (PT_REGS_RC ctx)) = true →
      (trace__sys_unlink_ret E tid now ctx st).2.calls = st.calls ∧
      sent (trace__sys_unlink_ret E tid now ctx st).2 = sent st) ∧
    (E.IS_UNHANDLED_ERROR (int32 (PT_REGS_RC ctx)) = false →
      (trace__sys_unlink_ret E tid now ctx st).2.calls =
        st.calls ++ [Call.fill_process_data tid, Call.send_event (built E tid now ctx c)] ∧
      sent (trace__sys_unlink_ret E tid now ctx st).2 = sent st ++ [built E tid now ctx c]) := by
  constructor
  · intro hu
    rw [ret_unhandled E tid now ctx st c hc hu]
    exact ⟨rfl, rfl⟩
  · intro hu
    rw [ret_handled E tid now ctx st c hc hu]
    refine ⟨rfl, ?_⟩
    simp [sent, List.filterMap_append]

/-- C7: after the return probe has run on a thread the syscall cache holds no context for that
thread, whatever the return value and whether or not an event was sent; the mid-flight probe
leaves a context for the thread exactly when there was one; and a second return probe on the
thread, with no entry probe in between, changes nothing and sends no event. -/
theorem context_consumed_once (E : Env) (tid now now2 : Nat) (ctx ctx2 kctx : pt_regs)
    (st : State) :
    peek_syscall tid (trace__sys_unlink_ret E tid now ctx st).2 = none ∧
    (peek_syscall tid (kprobe__vfs_unlink E tid kctx st).2).isSome
      = (peek_syscall tid st).isSome ∧
    trace__sys_unlink_ret E tid now2 ctx2 (trace__sys_unlink_ret E tid now ctx st).2
      = (0, (trace__sys_unlink_ret E tid now ctx st).2) ∧
    sent (trace__sys_unlink_ret E tid now2 ctx2 (trace__sys_unlink_ret E tid now ctx st).2).2
      = sent (trace__sys_unlink_ret E tid now ctx st).2 := by
  have h1 := peek_after_ret E tid now ctx st
  have h2 := ret_absent E tid now2 ctx2 _ h1
  refine ⟨h1, ?_, h2, by rw [h2]⟩
  cases hc : peek_syscall tid st with
  | none => rw [kprobe_absent E tid kctx st hc, hc]
  | some c =>
    by_cases hz : c.unlink.path_key.ino = 0
    · rw [peek_after_kprobe_unresolved E tid kctx st c hc hz]; rfl
    · rw [kprobe_resolved E tid kctx st c hc hz, hc]

/-- C8: when the syscall cache holds no context for the executing thread, the mid-flight probe
and the return probe both return 0 and leave the whole state unchanged (syscall cache,
discarder store, helper calls and sent events), for every dentry and every return value. -/
theorem empty_lookup_noop (E : Env) (tid now : Nat) (kctx rctx : pt_regs) (st : State)
    (h : peek_syscall tid st = none) :
    kprobe__vfs_unlink E tid kctx st = (0, st) ∧
    trace__sys_unlink_ret E tid now rctx st = (0, st) :=
  ⟨kprobe_absent E tid kctx st h, ret_absent E tid now rctx st h⟩

/-- C9: none of the three probes changes `unlink_prefix_discarders`: the entry probe leaves it
as it was on a hit and on a miss, for every path and flags value, and so do the mid-flight
probe and the return probe. -/
theorem discarders_read_only (E : Env) (tid now : Nat) (pathname : UserMem) (flags : Int)
    (ctx : pt_regs) (st : State) :
    (trace__sys_unlink E tid pathname flags st).2.unlink_prefix_discarders
      = st.unlink_prefix_discarders ∧
    (kprobe__vfs_unlink E tid ctx st).2.unlink_prefix_discarders
      = st.unlink_prefix_discarders ∧
    (trace__sys_unlink_ret E tid now ctx st).2.unlink_prefix_discarders
      = st.unlink_prefix_discarders := by
  refine ⟨?_, ?_, ?_⟩
  · cases hl : bpf_map_lookup_elem st.unlink_prefix_discarders (prefix_buffer E pathname) with
    | none => rw [entry_missed E tid pathname flags st hl]; rfl
    | some f => rw [entry_discarded E tid pathname flags st f hl]
  · cases hc : peek_syscall tid st with
    | none => rw [kprobe_absent E tid ctx st hc]
    | some c =>
      by_cases hz : c.unlink.path_key.ino = 0
      · rw [kprobe_unresolved E tid ctx st c hc hz]; rfl
      · rw [kprobe_resolved E tid ctx st c hc hz]
  · cases hc : peek_syscall tid st with
    | none => rw [ret_absent E tid now ctx st hc]
    | some c =>
      cases hu : E.IS_UNHANDLED_ERROR (int32 (PT_REGS_RC ctx)) with
      | true => rw [ret_unhandled E tid now ctx st c hc hu]
      | false => rw [ret_handled E tid now ctx st c hc hu]

/-- C2 (amended): for a thread with an in-flight context, if the context has a non-zero inode
after the first mid-flight probe (its `path_key.ino` was already non-zero, or `get_dentry_ino`
of the first dentry is non-zero), then after any number of further invocations, each with an
arbitrary dentry, the state, and with it the identity and `overlay_numlower` of the context, is
the one the first invocation left. In particular, with three invocations on a context whose
inode was not yet resolved, the event the return probe sends carries the inode and overlay
count of the first dentry. -/
theorem idempotent_resolution (E : Env) (tid d : Nat) (ds : List Nat) (st : State)
    (c : syscall_cache_t) (hc : peek_syscall tid st = some c)
    (h1 : c.unlink.path_key.ino ≠ 0 ∨ E.get_dentry_ino d ≠ 0) :
    vfs_unlink_calls E tid (d :: ds) st = vfs_unlink_calls E tid [d] st ∧
    peek_syscall tid (vfs_unlink_calls E tid (d :: ds) st)
      = peek_syscall tid (vfs_unlink_calls E tid [d] st) ∧
    (∀ (d2 d3 now : Nat) (ctx : pt_regs), c.unlink.path_key.ino = 0 →
      E.IS_UNHANDLED_ERROR (int32 (PT_REGS_RC ctx)) = false →
      ∃ ev, sent (trace__sys_unlink_ret E tid now ctx
                    (vfs_unlink_calls E tid [d, d2, d3] st)).2 = sent st ++ [ev] ∧
        ev.inode = E.get_dentry_ino d ∧
        ev.overlay_numlower = E.get_overlay_numlower d) := by
  have hall := calls_after_first E tid d ds st c hc h1
  refine ⟨hall, by rw [hall], ?_⟩
  intro d2 d3 now ctx hz hu
  obtain ⟨c1, hp, _, hres⟩ := first_call_resolves E tid d st c hc h1
  have hc1 := hres hz
  subst hc1
  refine ⟨built E tid now ctx (resolved E d c), ?_, rfl, rfl⟩
  rw [calls_after_first E tid d [d2, d3] st c hc h1,
    sent_after_ret_handled E tid now ctx _ (resolved E d c) hp hu, calls_single,
    sent_after_kprobe]

/-- C4 (amended): the entry probe does not test the result of `bpf_probe_read_str`; it looks up
the zero-initialised prefix buffer as the read left it. After a failed read that buffer is all
zero bytes; after a read that succeeds it is the bytes of the string up to its first NUL, cut to
one less than the buffer size, padded with zero bytes to the buffer size, so a short string
without NUL is copied whole and null-padded. Whenever the buffer is not a key of
`unlink_prefix_discarders`, the call is a miss: the probe returns 0 and creates the in-flight
context of the thread with `cache_syscall`. -/
theorem unreadable_prefix_is_looked_up (E : Env) (tid : Nat) (pathname : UserMem) (flags : Int)
    (st : State)
    (h : bpf_map_lookup_elem st.unlink_prefix_discarders (prefix_buffer E pathname) = none) :
    prefix_buffer E UserMem.fault = List.replicate E.sizeof_unlink_prefix_t 0 ∧
    (trace__sys_unlink E tid pathname flags st).1 = 0 ∧
    peek_syscall tid (trace__sys_unlink E tid pathname flags st).2 =
      some { type := E.EVENT_UNLINK
             unlink := { flags := flags, path_key := { ino := 0, mount_id := 0 },
                         overlay_numlower := 0 } } ∧
    cached (trace__sys_unlink E tid pathname flags st).2 =
      cached st ++ [(tid, { type := E.EVENT_UNLINK
                            unlink := { flags := flags, path_key := { ino := 0, mount_id := 0 },
                                        overlay_numlower := 0 } })] ∧
    (∀ bytes : List Nat,
      prefix_buffer E (UserMem.cstr bytes) =
        (bytes.takeWhile (fun b => decide (b ≠ 0))).take (E.sizeof_unlink_prefix_t - 1) ++
          List.replicate
            (E.sizeof_unlink_prefix_t -
              ((bytes.takeWhile (fun b => decide (b ≠ 0))).take
                (E.sizeof_unlink_prefix_t - 1)).length) 0) ∧
    (∀ bytes : List Nat, (∀ b ∈ bytes, b ≠ 0) → bytes.length < E.sizeof_unlink_prefix_t →
      prefix_buffer E (UserMem.cstr bytes) =
        bytes ++ List.replicate (E.sizeof_unlink_prefix_t - bytes.length) 0) := by
  rw [entry_missed E tid pathname flags st h]
  refine ⟨prefix_buffer_fault E, rfl, peek_cache_syscall _ _ _, ?_,
    prefix_buffer_cstr E, prefix_buffer_short E⟩
  simp [cached, cache_syscall, List.filterMap_append]

/-- C6: for any thread and flags value and a path whose prefix is in no discarder, the entry
probe, one mid-flight probe on a dentry, and the return probe with a return value not
classified as unhandled, together send exactly one event: its type is `EVENT_UNLINK`, its retval
the return value, its flags the flags of the call, its inode and overlay count those of the
dentry, and its mount id that of the context (zero here, as no probe of this file sets it).
This holds in particular for a thread with no in-flight context and a dentry with a non-zero
inode, the case the end-to-end scenario describes; neither condition is needed. -/
theorem end_to_end (E : Env) (tid now : Nat) (pathname : UserMem) (flags : Int)
    (kctx rctx : pt_regs) (st : State)
    (hmiss : bpf_map_lookup_elem st.unlink_prefix_discarders (prefix_buffer E pathname) = none)
    (hret : E.IS_UNHANDLED_ERROR (int32 (PT_REGS_RC rctx)) = false) :
    ∃ c, peek_syscall tid
          (kprobe__vfs_unlink E tid kctx (trace__sys_unlink E tid pathname flags st).2).2
          = some c ∧
      sent (trace__sys_unlink_ret E tid now rctx
              (kprobe__vfs_unlink E tid kctx
                (trace__sys_unlink E tid pathname flags st).2).2).2 =
        sent st ++ [{ event := { type := E.EVENT_UNLINK, timestamp := now,
                                 retval := PT_REGS_RC rctx }
                      process := E.process_data tid
                      inode := E.get_dentry_ino (PT_REGS_PARM2 kctx)
                      mount_id := (c.unlink.path_key.mount_id : Int)
                      overlay_numlower := E.get_overlay_numlower (PT_REGS_PARM2 kctx)
                      flags := flags
                      padding := 0 }] := by
  have hentry := entry_missed E tid pathname flags st hmiss
  have hpeek := peek_cache_syscall tid
    { type := E.EVENT_UNLINK
      unlink := { flags := flags, path_key := { ino := 0, mount_id := 0 },
                  overlay_numlower := 0 } } st
  rw [hentry]
  have hk := peek_after_kprobe_unresolved E tid kctx _ _ hpeek rfl
  refine ⟨_, hk, ?_⟩
  rw [sent_after_ret_handled E tid now rctx _ _ hk hret, sent_after_kprobe]
  simp [sent, cache_syscall, List.filterMap_append, built, resolved, int32]

/-- C10 (amended): the record the return probe sends has the fields of `struct unlink_event_t`
in declaration order: the event header (tag, timestamp, return value), then the process
metadata, then inode, mount id, overlay count, flags and padding; the process metadata
comes before the identity fields and the flags. -/
theorem event_layout (E : Env) (tid now : Nat) (ctx : pt_regs) (st : State)
    (c : syscall_cache_t) (hc : peek_syscall tid st = some c)
    (hret : E.IS_UNHANDLED_ERROR (int32 (PT_REGS_RC ctx)) = false) :
    ∃ ev, sent (trace__sys_unlink_ret E tid now ctx st).2 = sent st ++ [ev] ∧
      ev.wire =
        [("type", (E.EVENT_UNLINK : Int)), ("timestamp", (now : Int)),
         ("retval", PT_REGS_RC ctx), ("process", (E.process_data tid : Int)),
         ("inode", (c.unlink.path_key.ino : Int)),
         ("mount_id", int32 c.unlink.path_key.mount_id),
         ("overlay_numlower", c.unlink.overlay_numlower), ("flags", c.unlink.flags),
         ("padding", 0)] :=
  ⟨built E tid now ctx c, sent_after_ret_handled E tid now ctx st c hc hret, rfl⟩

/-! ## Concrete evaluations -/

/-- C1, as stated, fails: with a context left in the cache for thread 7, the entry probe on
the discarded path "/var/lib/blocked" leaves the cache alone and the return probe that follows
(return value 0) sends an event, built from that older context. -/
theorem discard_precedence_stale_counterexample :
    bpf_map_lookup_elem staleState.unlink_prefix_discarders
        (prefix_buffer env0 (UserMem.ofString "/var/lib/blocked")) = some { value := 1 } ∧
    peek_syscall 7 staleState = some staleContext ∧
    trace__sys_unlink env0 7 (UserMem.ofString "/var/lib/blocked") 0 staleState
      = (0, staleState) ∧
    sent staleState = [] ∧
    sent (trace__sys_unlink_ret env0 7 55 { parm2 := 0, rc := 0 }
            (trace__sys_unlink env0 7 (UserMem.ofString "/var/lib/blocked") 0 staleState).2).2
      = [{ event := { type := 4, timestamp := 55, retval := 0 }
           process := 107, inode := 42, mount_id := 3, overlay_numlower := 1, flags := 512,
           padding := 0 }] := by
  decide

/-- C1 (amended) at a concrete input: the path "/var/lib/blocked" with its discarder present and
no context cached for thread 7. -/
theorem discard_precedence_witness :
    bpf_map_lookup_elem blockedState.unlink_prefix_discarders
        (prefix_buffer env0 (UserMem.ofString "/var/lib/blocked")) = some { value := 1 } ∧
    peek_syscall 7 blockedState = none ∧
    trace__sys_unlink env0 7 (UserMem.ofString "/var/lib/blocked") 0 blockedState
      = (0, blockedState) ∧
    sent (trace__sys_unlink_ret env0 7 55 { parm2 := 0, rc := 0 }
            (trace__sys_unlink env0 7 (UserMem.ofString "/var/lib/blocked") 0 blockedState).2).2
      = sent blockedState :=
  have h := discard_precedence env0 7 55 (UserMem.ofString "/var/lib/blocked") 0
    { parm2 := 0, rc := 0 } blockedState { value := 1 } (by decide)
  ⟨by decide, by decide, h.1, (h.2.2 (by decide)).2⟩

/-- C2, as stated, fails: the first dentry (address 5000) has inode 0, so the second invocation
(address 3009, inode 9) resolves again: identity and overlay count after the second invocation
differ from those after the first, and with three invocations the event carries the inode of
the second. -/
theorem idempotent_resolution_zero_inode_counterexample :
    peek_syscall 7 enteredState = some freshContext ∧
    env0.get_dentry_ino 5000 = 0 ∧
    peek_syscall 7 (vfs_unlink_calls env0 7 [5000] enteredState)
      = some { type := 4
               unlink := { flags := 0, path_key := { ino := 0, mount_id := 0 },
                           overlay_numlower := 5 } } ∧
    peek_syscall 7 (vfs_unlink_calls env0 7 [5000, 3009] enteredState)
      = some { type := 4
               unlink := { flags := 0, path_key := { ino := 9, mount_id := 0 },
                           overlay_numlower := 3 } } ∧
    (sent (trace__sys_unlink_ret env0 7 55 { parm2 := 0, rc := 0 }
            (vfs_unlink_calls env0 7 [5000, 3009, 4011] enteredState)).2).map
        (fun ev => (ev.inode, ev.overlay_numlower)) = [(9, 3)] := by
  decide

/-- C2 (amended) at a concrete input: three invocations on dentries with inodes 7, 9 and 11. -/
theorem idempotent_resolution_witness :
    peek_syscall 7 enteredState = some freshContext ∧
    env0.get_dentry_ino 2007 ≠ 0 ∧
    vfs_unlink_calls env0 7 [2007, 3009, 4011] enteredState
      = vfs_unlink_calls env0 7 [2007] enteredState ∧
    ∃ ev, sent (trace__sys_unlink_ret env0 7 55 { parm2 := 0, rc := 0 }
                  (vfs_unlink_calls env0 7 [2007, 3009, 4011] enteredState)).2
            = sent enteredState ++ [ev] ∧
      ev.inode = 7 ∧ ev.overlay_numlower = 2 :=
  have h := idempotent_resolution env0 7 2007 [3009, 4011] enteredState freshContext
    (by decide) (Or.inr (by decide))
  ⟨by decide, by decide, h.1, h.2.2 3009 4011 55 { parm2 := 0, rc := 0 } (by decide) (by decide)⟩

/-- C3 at a concrete input: thread 7 holds a context with inode 42. -/
theorem sentinel_guard_witness :
    peek_syscall 7 staleState = some staleContext ∧
    staleContext.unlink.path_key.ino ≠ 0 ∧
    kprobe__vfs_unlink env0 7 { parm2 := 3009, rc := 0 } staleState = (0, staleState) :=
  ⟨by decide, by decide,
   (sentinel_guard env0 7 { parm2 := 3009, rc := 0 } staleState staleContext
      (by decide) (by decide)).1⟩

/-- C4, as stated, fails: the short path "/tmp" copies 5 bytes into the 32-byte buffer and an
unreadable path leaves it all zero; with a discarder for each of the two buffers in the store
both calls are discarded, and no context is created. -/
theorem short_read_discarded_counterexample :
    bpf_probe_read_str (List.replicate 32 0) 32 (UserMem.ofString "/tmp")
      = ([47, 116, 109, 112] ++ List.replicate 28 0, 5) ∧
    trace__sys_unlink env0 7 (UserMem.ofString "/tmp") 0 shortKeyState = (0, shortKeyState) ∧
    peek_syscall 7 (trace__sys_unlink env0 7 (UserMem.ofString "/tmp") 0 shortKeyState).2
      = none ∧
    bpf_probe_read_str (List.replicate 32 0) 32 UserMem.fault = (List.replicate 32 0, -14) ∧
    trace__sys_unlink env0 7 UserMem.fault 0 shortKeyState = (0, shortKeyState) ∧
    peek_syscall 7 (trace__sys_unlink env0 7 UserMem.fault 0 shortKeyState).2 = none := by
  decide

/-- C4 (amended) at concrete inputs: an unreadable path, and the short path "/tmp/foo", on a
store that holds neither the all-zero key nor the null-padded bytes of "/tmp/foo". -/
theorem unreadable_prefix_is_looked_up_witness :
    bpf_map_lookup_elem blockedState.unlink_prefix_discarders (prefix_buffer env0 UserMem.fault)
      = none ∧
    peek_syscall 7 (trace__sys_unlink env0 7 UserMem.fault 0 blockedState).2
      = some freshContext ∧
    bpf_map_lookup_elem blockedState.unlink_prefix_discarders
        (prefix_buffer env0 (UserMem.ofString "/tmp/foo")) = none ∧
    peek_syscall 7 (trace__sys_unlink env0 7 (UserMem.ofString "/tmp/foo") 0 blockedState).2
      = some freshContext ∧
    prefix_buffer env0 (UserMem.cstr [47, 116, 109, 112, 47, 102, 111, 111]) =
      [47, 116, 109, 112, 47, 102, 111, 111] ++ List.replicate (32 - 8) 0 :=
  ⟨by decide,
   (unreadable_prefix_is_looked_up env0 7 UserMem.fault 0 blockedState (by decide)).2.2.1,
   by decide,
   (unreadable_prefix_is_looked_up env0 7 (UserMem.ofString "/tmp/foo") 0 blockedState
      (by decide)).2.2.1,
   (unreadable_prefix_is_looked_up env0 7 (UserMem.ofString "/tmp/foo") 0 blockedState
      (by decide)).2.2.2.2.2 [47, 116, 109, 112, 47, 102, 111, 111] (by decide) (by decide)⟩

/-- C5 at concrete inputs: thread 7 holds a context; return value -2 is unhandled in `env0`,
return value 0 is not. -/
theorem uninteresting_return_suppression_witness :
    peek_syscall 7 staleState = some staleContext ∧
    env0.IS_UNHANDLED_ERROR (int32 (PT_REGS_RC { parm2 := 0, rc := -2 })) = true ∧
    sent (trace__sys_unlink_ret env0 7 55 { parm2 := 0, rc := -2 } staleState).2
      = sent staleState ∧
    env0.IS_UNHANDLED_ERROR (int32 (PT_REGS_RC { parm2 := 0, rc := 0 })) = false ∧
    sent (trace__sys_unlink_ret env0 7 55 { parm2 := 0, rc := 0 } staleState).2
      = sent staleState ++ [built env0 7 55 { parm2 := 0, rc := 0 } staleContext] :=
  ⟨by decide, by decide,
   ((uninteresting_return_suppression env0 7 55 { parm2 := 0, rc := -2 } staleState
      staleContext (by decide)).1 (by decide)).2,
   by decide,
   ((uninteresting_return_suppression env0 7 55 { parm2 := 0, rc := 0 } staleState
      staleContext (by decide)).2 (by decide)).2⟩

/-- C6 at the scenario of the specification: path "/tmp/foo", flags 0, return value 0, on the
empty state, with a dentry of inode 7 and overlay count 2. -/
theorem end_to_end_witness :
    bpf_map_lookup_elem State.empty.unlink_prefix_discarders
        (prefix_buffer env0 (UserMem.ofString "/tmp/foo")) = none ∧
    env0.IS_UNHANDLED_ERROR (int32 (PT_REGS_RC { parm2 := 0, rc := 0 })) = false ∧
    ∃ c, peek_syscall 7
          (kprobe__vfs_unlink env0 7 { parm2 := 2007, rc := 0 }
            (trace__sys_unlink env0 7 (UserMem.ofString "/tmp/foo") 0 State.empty).2).2
          = some c ∧
      sent (trace__sys_unlink_ret env0 7 55 { parm2 := 0, rc := 0 }
              (kprobe__vfs_unlink env0 7 { parm2 := 2007, rc := 0 }
                (trace__sys_unlink env0 7 (UserMem.ofString "/tmp/foo") 0 State.empty).2).2).2 =
        sent State.empty ++
          [{ event := { type := env0.EVENT_UNLINK, timestamp := 55,
                        retval := PT_REGS_RC { parm2 := 0, rc := 0 } }
             process := env0.process_data 7
             inode := env0.get_dentry_ino (PT_REGS_PARM2 { parm2 := 2007, rc := 0 })
             mount_id := (c.unlink.path_key.mount_id : Int)
             overlay_numlower := env0.get_overlay_numlower (PT_REGS_PARM2 { parm2 := 2007, rc := 0 })
             flags := 0
             padding := 0 }] :=
  ⟨by decide, by decide,
   end_to_end env0 7 55 (UserMem.ofString "/tmp/foo") 0 { parm2 := 2007, rc := 0 }
     { parm2 := 0, rc := 0 } State.empty (by decide) (by decide)⟩

/-- C8 at a concrete input: no context is cached for thread 7. -/
theorem empty_lookup_noop_witness :
    peek_syscall 7 blockedState = none ∧
    kprobe__vfs_unlink env0 7 { parm2 := 2007, rc := 0 } blockedState = (0, blockedState) ∧
    trace__sys_unlink_ret env0 7 55 { parm2 := 0, rc := 0 } blockedState = (0, blockedState) :=
  ⟨by decide,
   empty_lookup_noop env0 7 55 { parm2 := 2007, rc := 0 } { parm2 := 0, rc := 0 } blockedState
     (by decide)⟩

/-- C10, as stated, fails: in the record sent the process metadata is the fourth field, before
the inode, the mount id, the overlay count and the flags. -/
theorem event_layout_process_first_counterexample :
    (sampleEvent.wire.map Prod.fst).indexOf "process" = 3 ∧
    (sampleEvent.wire.map Prod.fst).indexOf "inode" = 4 ∧
    (sampleEvent.wire.map Prod.fst).indexOf "mount_id" = 5 ∧
    (sampleEvent.wire.map Prod.fst).indexOf "overlay_numlower" = 6 ∧
    (sampleEvent.wire.map Prod.fst).indexOf "flags" = 7 ∧
    ¬ ((sampleEvent.wire.map Prod.fst).indexOf "flags"
        < (sampleEvent.wire.map Prod.fst).indexOf "process") := by
  decide

/-- C10 (amended) at a concrete input: the record sent for the context thread 7 holds. -/
theorem event_layout_witness :
    peek_syscall 7 staleState = some staleContext ∧
    env0.IS_UNHANDLED_ERROR (int32 (PT_REGS_RC { parm2 := 0, rc := 0 })) = false ∧
    ∃ ev, sent (trace__sys_unlink_ret env0 7 55 { parm2 := 0, rc := 0 } staleState).2
            = sent staleState ++ [ev] ∧
      ev.wire =
        [("type", 4), ("timestamp", 55), ("retval", 0), ("process", 107), ("inode", 42),
         ("mount_id", 3), ("overlay_numlower", 1), ("flags", 512), ("padding", 0)] :=
  ⟨by decide, by decide,
   event_layout env0 7 55 { parm2 := 0, rc := 0 } staleState staleContext (by decide)
     (by decide)⟩

end Unlink
